import Mathlib

/-!
Verification of `cargo-debug` (`src/main.rs`) against its natural-language
specification.  The embedding below mirrors `main` stage by stage:

* argument partitioning on the `"--"` sentinel (`args.splitn(3, |v| v == "--")`),
  plus removal of the `debug` plugin marker at position 1;
* synthesis of the cargo command line;
* handling of `handle.wait()`;
* the output/selection filters over compiler artifacts;
* the per-debugger argument builders (gdb / lldb dialects) and the phase that
  either prints, launches, or rejects the debugger;
* the Ctrl-C debounce handler.

OS strings are modelled as either valid UTF-8 (carrying the string) or an
opaque invalid byte sequence; every `to_str().unwrap()` in the source becomes
an `Option` whose `none` stands for the panic.
-/

namespace CargoDebug

/-- An `OsString`: either valid UTF-8 or some non-UTF-8 byte sequence
(identified by an opaque tag). `to_str()` succeeds exactly on the former. -/
inductive OsString where
  | valid (s : String)
  | invalid (id : Nat)
deriving DecidableEq, Repr

/-- Mirrors `OsStr::to_str`: `some` exactly for valid UTF-8. -/
def OsString.toStr : OsString → Option String
  | .valid s => some s
  | .invalid _ => none

/-- The separator predicate `|v| v == "--"` used in `args.splitn(3, ..)`.
A non-UTF-8 byte sequence is never byte-equal to `"--"`. -/
def OsString.isSep : OsString → Bool
  | .valid s => s = "--"
  | .invalid _ => false

/-- One step of `splitn`: the chunk before the first separator, and, when a
separator occurs, the (verbatim) remainder after it. -/
def splitFirst : List OsString → List OsString × Option (List OsString)
  | [] => ([], none)
  | x :: rest =>
    if x.isSep then ([], some rest)
    else
      let (pre, post) := splitFirst rest
      (x :: pre, post)

/-- The three groups produced by `args.splitn(3, |v| v == "--")` in `main`:
tool options, then `cargo_opts` (present iff at least one separator), then
`child_opts` (present iff at least two separators, kept verbatim). -/
structure Partitioned where
  config_opts : List OsString
  cargo_opts : Option (List OsString)
  child_opts : Option (List OsString)
deriving DecidableEq, Repr

/-- Mirrors the `splitn(3, ..)` consumption in `main` (lines 59-79): the first
chunk is always present, the second and third only when their separator was
seen; the third chunk is the untouched remainder. -/
def partitionArgs (args : List OsString) : Partitioned :=
  match splitFirst args with
  | (config, none) => ⟨config, none, none⟩
  | (config, some rest1) =>
    match splitFirst rest1 with
    | (cargo, none) => ⟨config, some cargo, none⟩
    | (cargo, some rest2) => ⟨config, some cargo, some rest2⟩

/-- Mirrors the plugin-marker removal (lines 66-70): if the token at index 1
exists, `to_str().unwrap()` it (panic — `none` — on non-UTF-8) and remove it
exactly when it equals `"debug"`. -/
def removeDebugMarker (cfg : List OsString) : Option (List OsString) :=
  match cfg[1]? with
  | none => some cfg
  | some o =>
    match o.toStr with
    | none => none
    | some s => if s = "debug" then some (cfg.eraseIdx 1) else some cfg

/-- Mirrors `o.iter().map(|v| v.to_str().unwrap().to_string()).collect()`
(lines 72-79): converts every token, panicking (`none`) on the first
non-UTF-8 token. -/
def convertTokens : List OsString → Option (List String)
  | [] => some []
  | x :: xs =>
    match x.toStr, convertTokens xs with
    | some s, some rest => some (s :: rest)
    | _, _ => none

/-- Mirrors the cargo command synthesis (lines 103-117): subcommand first,
then `--message-format=json`, then `--no-run` exactly for the `test`
subcommand, then the user-supplied cargo options verbatim (when that group exists). -/
def buildCargoArgs (subcommand : String) (cargo_opts : Option (List String)) :
    List String :=
  let args := [subcommand, "--message-format=json"]
  let args := if subcommand = "test" then args ++ ["--no-run"] else args
  match cargo_opts with
  | some opts => args ++ opts
  | none => args

/-- Result of `Child::wait()`: an exit code on success (non-zero included), or
an operating-system error from the wait itself. -/
inductive WaitResult where
  | ok (exitCode : Int)
  | ioError (msg : String)
deriving DecidableEq, Repr

/-- Mirrors `handle.wait().expect(..)` (line 136): the `expect` panics only
when `wait` itself errors; the returned `ExitStatus` value is dropped, so the
run proceeds to artifact selection for every exit code, zero or not. -/
def proceedsAfterWait : WaitResult → Bool
  | .ok _ => true
  | .ioError _ => false

/-- A filesystem path: its full byte content and its `file_name()` component
(absent when the path has no final component). -/
structure Path where
  full : OsString
  fileName : Option OsString
deriving DecidableEq, Repr

/-- A `CompilerArtifact` message as consumed by `main`: the target name and
the optional produced executable. -/
structure Artifact where
  target_name : String
  executable : Option Path
deriving DecidableEq, Repr

/-- Mirrors the output filter (lines 140-146): keep exactly the `executable`
paths that are present. The package name read from `Cargo.toml` is not
consulted here. -/
def selectOutputs (artifacts : List Artifact) : List Path :=
  artifacts.filterMap (fun a => a.executable)

/-- Modelled from the wording of the spec, for comparison (ArtifactSelector contract):
keep entries whose `target_name` equals the package name AND whose executable
path is present. This follows the spec wording, not the code behaviour. -/
def selectOutputsSpec (package : String) (artifacts : List Artifact) :
    List Path :=
  (artifacts.filter (fun a => a.target_name = package)).filterMap
    (fun a => a.executable)

/-- Outcome of the binary-selection step. -/
inductive SelOutcome where
  | selected (p : Path)
  | ambiguousReturn (names : List OsString)
  | panic (msg : String)
deriving DecidableEq, Repr

/-- The Rust `str::ends_with(suffix)`, modelled on the character sequence (for
valid UTF-8 a byte-level suffix that is itself valid UTF-8 is exactly a
character-level suffix). -/
def strEndsWith (s suffix : String) : Bool := decide (suffix.data <:+ s.data)

/-- The Rust `str::starts_with(pre)`, modelled on the character sequence. -/
def strStartsWith (s pre : String) : Bool := decide (pre.data <+: s.data)

/-- Mirrors the `--filter` branch (lines 151-155):
`outputs.iter().find(|p| p.file_name().unwrap().to_str().unwrap()
.starts_with(&f)).expect("no fi")` — the two unwraps panic on a missing or
non-UTF-8 file name of any candidate inspected before a match. -/
def findByFilter (f : String) : List Path → SelOutcome
  | [] => .panic "no fi"
  | p :: ps =>
    match p.fileName with
    | none => .panic "unwrap"
    | some n =>
      match n.toStr with
      | none => .panic "unwrap"
      | some s => if strStartsWith s f then .selected p else findByFilter f ps

/-- Mirrors the selection match (lines 150-167): with a filter, scan for the
first matching file name; without one, more than one output triggers the
guided early `return`, zero outputs panic, and a single output is selected. -/
def selectBin (filter : Option String) (outputs : List Path) : SelOutcome :=
  match filter with
  | some f => findByFilter f outputs
  | none =>
    if outputs.length > 1 then .ambiguousReturn (outputs.filterMap Path.fileName)
    else
      match outputs.get? 0 with
      | some p => .selected p
      | none => .panic "no viable output artifacts found"

/-- Mirrors the gdb branch (lines 175-193): `--args` iff child options are
present (even empty), then `--command FILE` when given, then the binary, then
the child options. Takes the binary already unwrapped to UTF-8. -/
def gdbArgs (bin : String) (command_file : Option String)
    (child_opts : Option (List String)) : List String :=
  let args : List String := []
  let args := match child_opts with
    | some _ => args ++ ["--args"]
    | none => args
  let args := match command_file with
    | some cf => args ++ ["--command", cf]
    | none => args
  let args := args ++ [bin]
  match child_opts with
  | some opts => args ++ opts
  | none => args

/-- Mirrors the lldb branch (lines 194-209): `--file BIN` first, then
`--source FILE` when given, then `--` and the child options when present. -/
def lldbArgs (bin : String) (command_file : Option String)
    (child_opts : Option (List String)) : List String :=
  let args := ["--file", bin]
  let args := match command_file with
    | some cf => args ++ ["--source", cf]
    | none => args
  match child_opts with
  | some opts => args ++ ["--"] ++ opts
  | none => args

/-- Result of assembling the debugger argument vector. -/
inductive DebugArgsResult where
  | ok (args : List String)
  | panic (msg : String)
  | unsupported
deriving DecidableEq, Repr

/-- Mirrors the dialect dispatch (lines 175-213): suffix match on the debugger
name; inside a recognized branch `bin.to_str().unwrap()` panics on a
non-UTF-8 path; any other name hits the `unsupported` arm. -/
def buildDebugArgs (debugger : String) (bin : Path)
    (command_file : Option String) (child_opts : Option (List String)) :
    DebugArgsResult :=
  if strEndsWith debugger "gdb" then
    match bin.full.toStr with
    | none => .panic "unwrap"
    | some b => .ok (gdbArgs b command_file child_opts)
  else if strEndsWith debugger "lldb" then
    match bin.full.toStr with
    | none => .panic "unwrap"
    | some b => .ok (lldbArgs b command_file child_opts)
  else
    .unsupported

/-- What happened when the debugger child process was run. -/
inductive SpawnResult where
  | exited (code : Int)
  | launchError
deriving DecidableEq, Repr

/-- How the debug phase of `main` ends. -/
inductive DebugPhaseResult where
  | printedNoRun (debugger : String) (args : List String)
  | unsupportedDebugger (debugger : String)
  | panicked (msg : String)
  | ranDebugger (args : List String)
deriving DecidableEq, Repr

/-- Mirrors the tail of `main` (lines 171-248): build the dialect arguments;
unsupported names `return` early; `--no-run` prints and exits 0; otherwise
`debug_cmd.status().expect(..)` runs the debugger — a launch failure panics,
and a successful run discards the exit status of the child before `main` returns. -/
def debugPhase (debugger : String) (bin : Path) (command_file : Option String)
    (child_opts : Option (List String)) (no_run : Bool) (spawn : SpawnResult) :
    DebugPhaseResult :=
  match buildDebugArgs debugger bin command_file child_opts with
  | .unsupported => .unsupportedDebugger debugger
  | .panic m => .panicked m
  | .ok args =>
    if no_run then .printedNoRun debugger args
    else
      match spawn with
      | .launchError => .panicked "error running debug command"
      | .exited _ => .ranDebugger args

/-- The process exit code each ending of the debug phase produces:
`return` from `main` and `process::exit(0)` give 0, a Rust panic gives the
generic failure code 101. -/
def DebugPhaseResult.exitCode : DebugPhaseResult → Int
  | .printedNoRun _ _ => 0
  | .unsupportedDebugger _ => 0
  | .panicked _ => 101
  | .ranDebugger _ => 0

/-- One invocation of the Ctrl-C handler (lines 228-237), times in
milliseconds: `duration_since(..).unwrap()` panics when the recorded time is
in the future; otherwise exit with code 0 when strictly more than one second
elapsed, else record `now` and keep running. -/
inductive InterruptAction where
  | exitZero
  | swallow (newLast : Nat)
  | panicked
deriving DecidableEq, Repr

/-- The debounce step of the handler. -/
def interruptStep (lastMs nowMs : Nat) : InterruptAction :=
  if lastMs ≤ nowMs then
    if 1000 < nowMs - lastMs then .exitZero else .swallow nowMs
  else .panicked

/-- The guard state after a sequence of interrupts. -/
inductive GuardOutcome where
  | running (lastMs : Nat)
  | exited
  | panicked
deriving DecidableEq, Repr

/-- Runs the handler over a list of interrupt arrival times, starting from the
timestamp recorded when the handler was installed. -/
def runInterrupts : Nat → List Nat → GuardOutcome
  | lastMs, [] => .running lastMs
  | lastMs, t :: ts =>
    match interruptStep lastMs t with
    | .exitZero => .exited
    | .swallow n => runInterrupts n ts
    | .panicked => .panicked

/-! ### Theorems -/

/-- Claim C1, counterexample: an artifact whose `target_name` differs from the
package name but whose executable is present IS retained by the output
filter, while the spec-modelled selector drops it — the code never consults
the package name, so such artifacts are candidates, contradicting the claim. -/
theorem c1_counterexample :
    selectOutputs [⟨"other", some ⟨.valid "/t/x", some (.valid "x")⟩⟩]
      = [⟨.valid "/t/x", some (.valid "x")⟩]
    ∧ selectOutputsSpec "pkg" [⟨"other", some ⟨.valid "/t/x", some (.valid "x")⟩⟩] = []
    ∧ selectOutputs [⟨"other", some ⟨.valid "/t/x", some (.valid "x")⟩⟩]
      ≠ selectOutputsSpec "pkg" [⟨"other", some ⟨.valid "/t/x", some (.valid "x")⟩⟩] := by
  refine ⟨rfl, rfl, by decide⟩

/-- Claim C1, amended: the output filter retains exactly the artifacts whose
executable path is present, independent of `target_name` (the package name
read from the manifest is only logged, never compared). -/
theorem c1_selection_amended (artifacts : List CargoDebug.Artifact)
    (p : CargoDebug.Path) :
    p ∈ selectOutputs artifacts ↔ ∃ a ∈ artifacts, a.executable = some p := by
  simp [selectOutputs, List.mem_filterMap]

/-- Claim C2: `handle.wait().expect(..)` only inspects whether `wait` itself
returned an error; every successfully awaited exit status — the non-zero exit
status 1 included — lets the run proceed to artifact selection, so a build
failure is not surfaced as the claim (and the `expect` message) intends. -/
theorem c2_wait_ignores_exit_code :
    (∀ code : Int, proceedsAfterWait (.ok code) = true)
    ∧ proceedsAfterWait (.ok 1) = true
    ∧ (∀ msg : String, proceedsAfterWait (.ioError msg) = false) :=
  ⟨fun _ => rfl, rfl, fun _ => rfl⟩

/-- Claim C3, counterexample: with `no_run` false, debugger `gdb` spawned
successfully and exiting with code 5, the exit code of the wrapper itself is 0, not 5
— the exit status of the debugger is discarded, not propagated. -/
theorem c3_counterexample :
    (debugPhase "gdb" ⟨.valid "/tmp/a", some (.valid "a")⟩ none none false
        (.exited 5)).exitCode = 0
    ∧ (5 : Int) ≠ 0 := by
  refine ⟨by decide, by decide⟩

/-- Claim C3, amended: whenever the dialect arguments were assembled and
`no_run` is false, a successfully spawned debugger — whatever its exit code —
leaves the wrapper exiting 0, and a debugger that could not be started makes
the wrapper end with the generic panic failure code 101. -/
theorem c3_exit_amended (debugger : String) (bin : CargoDebug.Path)
    (cf : Option String) (ch : Option (List String)) (args : List String)
    (code : Int) (hok : buildDebugArgs debugger bin cf ch = .ok args) :
    (debugPhase debugger bin cf ch false (.exited code)).exitCode = 0
    ∧ (debugPhase debugger bin cf ch false .launchError).exitCode = 101 := by
  simp [debugPhase, hok, DebugPhaseResult.exitCode]

/-- Witness for `c3_exit_amended` at debugger `gdb`, binary `/tmp/a`,
debugger exit code 5. -/
theorem c3_exit_amended_witness :
    (debugPhase "gdb" ⟨.valid "/tmp/a", some (.valid "a")⟩ none none false
        (.exited 5)).exitCode = 0
    ∧ (debugPhase "gdb" ⟨.valid "/tmp/a", some (.valid "a")⟩ none none false
        .launchError).exitCode = 101 :=
  c3_exit_amended "gdb" ⟨.valid "/tmp/a", some (.valid "a")⟩ none none
    ["/tmp/a"] 5 (by decide)

/-- Claim C4, counterexample: for the unrecognized debugger name `windbg` the
program reports the unsupported-debugger error and never launches, but the
early `return` from `main` exits with status 0, not non-zero as claimed. -/
theorem c4_counterexample :
    debugPhase "windbg" ⟨.valid "/tmp/a", some (.valid "a")⟩ none none false
      (.exited 0) = .unsupportedDebugger "windbg"
    ∧ (DebugPhaseResult.unsupportedDebugger "windbg").exitCode = 0 := by
  refine ⟨by decide, rfl⟩

/-- Claim C4, amended: a debugger name matching neither the gdb nor the lldb
suffix makes the debug phase end in the unsupported-debugger report, never in
a debugger launch, with exit status 0 (the `error!` log is followed by a bare
`return`). -/
theorem c4_unsupported_amended (debugger : String) (bin : CargoDebug.Path)
    (cf : Option String) (ch : Option (List String)) (noRun : Bool)
    (spawn : SpawnResult)
    (hg : strEndsWith debugger "gdb" = false)
    (hl : strEndsWith debugger "lldb" = false) :
    debugPhase debugger bin cf ch noRun spawn = .unsupportedDebugger debugger
    ∧ (debugPhase debugger bin cf ch noRun spawn).exitCode = 0
    ∧ ∀ args : List String,
        debugPhase debugger bin cf ch noRun spawn ≠ .ranDebugger args := by
  simp [debugPhase, buildDebugArgs, hg, hl, DebugPhaseResult.exitCode]

/-- Witness for `c4_unsupported_amended` at debugger name `windbg`. -/
theorem c4_unsupported_amended_witness :
    debugPhase "windbg" ⟨.valid "/tmp/a", some (.valid "a")⟩ none none false
        (.exited 0) = .unsupportedDebugger "windbg"
    ∧ (debugPhase "windbg" ⟨.valid "/tmp/a", some (.valid "a")⟩ none none false
        (.exited 0)).exitCode = 0
    ∧ ∀ args : List String,
        debugPhase "windbg" ⟨.valid "/tmp/a", some (.valid "a")⟩ none none
          false (.exited 0) ≠ .ranDebugger args :=
  c4_unsupported_amended "windbg" ⟨.valid "/tmp/a", some (.valid "a")⟩ none
    none false (.exited 0) (by decide) (by decide)

/-- Claim C5: the gdb dialect emits `--args` first iff child arguments are
present (even empty), then `--command FILE` when a command file is given, then
the binary, then the child arguments; in particular `/tmp/a` with absent child
arguments gives `[/tmp/a]` and with present-but-empty ones gives
`[--args, /tmp/a]`. -/
theorem c5_gdb_dialect :
    (∀ (bin : String) (cf : Option String) (ch : Option (List String)),
        gdbArgs bin cf ch =
          (if ch.isSome then ["--args"] else [])
            ++ (match cf with | some f => ["--command", f] | none => [])
            ++ [bin] ++ ch.getD [])
    ∧ gdbArgs "/tmp/a" none none = ["/tmp/a"]
    ∧ gdbArgs "/tmp/a" none (some []) = ["--args", "/tmp/a"] := by
  refine ⟨?_, rfl, rfl⟩
  intro bin cf ch
  cases ch <;> cases cf <;> simp [gdbArgs]

/-- Claim C6: the lldb dialect always opens with `--file BIN`, then
`--source FILE` when a command file is given, then `--` and the child
arguments when those are present; the concrete example from the spec holds exactly. -/
theorem c6_lldb_dialect :
    (∀ (bin : String) (cf : Option String) (ch : Option (List String)),
        lldbArgs bin cf ch =
          ["--file", bin]
            ++ (match cf with | some f => ["--source", f] | none => [])
            ++ (match ch with | some opts => "--" :: opts | none => []))
    ∧ lldbArgs "/tmp/a" (some "s.txt") (some ["x"])
        = ["--file", "/tmp/a", "--source", "s.txt", "--", "x"] := by
  refine ⟨?_, rfl⟩
  intro bin cf ch
  cases ch <;> cases cf <;> simp [lldbArgs]

/-- Claim C8: the synthesized cargo invocation is the subcommand, then
`--message-format=json`, then `--no-run` exactly when the subcommand is
`test`, then the user-supplied cargo arguments verbatim and in order. -/
theorem c8_cargo_command (sub : String) (opts : Option (List String)) :
    buildCargoArgs sub opts
      = sub :: "--message-format=json"
          :: ((if sub = "test" then ["--no-run"] else []) ++ opts.getD []) := by
  cases opts <;> simp [buildCargoArgs] <;> split <;> simp

/-- Helper: on a list without separators, `splitFirst` returns the whole list
and no remainder. -/
theorem splitFirst_of_noSep (xs : List OsString)
    (h : ∀ x ∈ xs, x.isSep = false) : splitFirst xs = (xs, none) := by
  induction xs with
  | nil => rfl
  | cons x rest ih =>
    have hx : x.isSep = false := h x (List.mem_cons_self x rest)
    have hrest := ih fun y hy => h y (List.mem_cons_of_mem x hy)
    simp [splitFirst, hx, hrest]

/-- Helper: with a separator-free block before a separator, `splitFirst`
returns that block and the verbatim remainder after the separator. -/
theorem splitFirst_of_sep (pre rest : List OsString)
    (h : ∀ x ∈ pre, x.isSep = false) :
    splitFirst (pre ++ OsString.valid "--" :: rest) = (pre, some rest) := by
  induction pre with
  | nil => simp [splitFirst, OsString.isSep]
  | cons x xs ih =>
    have hx : x.isSep = false := h x (List.mem_cons_self x xs)
    have hxs := ih fun y hy => h y (List.mem_cons_of_mem x hy)
    simp [splitFirst, hx, hxs]

/-- Claim C7: the partitioner groups are present exactly per the separator
count — no separator leaves both optional groups absent; one separator makes
`cargo_opts` present (possibly empty) and `child_opts` absent; two separators
make both present with everything after the second kept verbatim (further
`--` tokens included); and the token at index 1 of the tool-options group is
removed exactly when it equals the `debug` plugin marker. -/
theorem c7_arg_partitioner :
    (∀ args : List OsString, (∀ x ∈ args, x.isSep = false) →
        partitionArgs args = ⟨args, none, none⟩)
    ∧ (∀ pre rest : List OsString, (∀ x ∈ pre, x.isSep = false) →
        (∀ x ∈ rest, x.isSep = false) →
        partitionArgs (pre ++ OsString.valid "--" :: rest)
          = ⟨pre, some rest, none⟩)
    ∧ (∀ pre mid post : List OsString, (∀ x ∈ pre, x.isSep = false) →
        (∀ x ∈ mid, x.isSep = false) →
        partitionArgs (pre ++ OsString.valid "--" :: (mid ++ OsString.valid "--" :: post))
          = ⟨pre, some mid, some post⟩)
    ∧ (∀ cfg : List OsString, cfg[1]? = none →
        removeDebugMarker cfg = some cfg)
    ∧ (∀ (cfg : List OsString) (s : String), cfg[1]? = some (.valid s) →
        removeDebugMarker cfg
          = some (if s = "debug" then cfg.eraseIdx 1 else cfg)) := by
  refine ⟨?_, ?_, ?_, ?_, ?_⟩
  · intro args h
    simp [partitionArgs, splitFirst_of_noSep args h]
  · intro pre rest hpre hrest
    simp [partitionArgs, splitFirst_of_sep pre rest hpre,
      splitFirst_of_noSep rest hrest]
  · intro pre mid post hpre hmid
    simp [partitionArgs, splitFirst_of_sep pre _ hpre,
      splitFirst_of_sep mid post hmid]
  · intro cfg h
    simp [removeDebugMarker, h]
  · intro cfg s h
    simp only [removeDebugMarker, h, OsString.toStr]
    split <;> rfl

/-- Witness for `c7_arg_partitioner`: concrete invocations with zero, one and
three separators, and the plugin-marker removal on
`["cargo", "debug", "--no-run"]`. -/
theorem c7_arg_partitioner_witness :
    partitionArgs [OsString.valid "cargo", OsString.valid "debug"]
      = ⟨[OsString.valid "cargo", OsString.valid "debug"], none, none⟩
    ∧ partitionArgs
        [OsString.valid "cargo", OsString.valid "--", OsString.valid "-v"]
      = ⟨[OsString.valid "cargo"], some [OsString.valid "-v"], none⟩
    ∧ partitionArgs
        [OsString.valid "cargo", OsString.valid "--", OsString.valid "--",
          OsString.valid "x", OsString.valid "--"]
      = ⟨[OsString.valid "cargo"], some [],
          some [OsString.valid "x", OsString.valid "--"]⟩
    ∧ removeDebugMarker
        [OsString.valid "cargo", OsString.valid "debug", OsString.valid "--no-run"]
      = some [OsString.valid "cargo", OsString.valid "--no-run"] := by
  refine ⟨c7_arg_partitioner.1 _ (by decide), ?_, ?_, ?_⟩
  · exact c7_arg_partitioner.2.1 [OsString.valid "cargo"] [OsString.valid "-v"]
      (by decide) (by decide)
  · exact c7_arg_partitioner.2.2.1 [OsString.valid "cargo"] []
      [OsString.valid "x", OsString.valid "--"] (by decide) (by decide)
  · simpa using c7_arg_partitioner.2.2.2.2
      [OsString.valid "cargo", OsString.valid "debug", OsString.valid "--no-run"]
      "debug" rfl

/-- Claim C9: a handler invocation exits (with the success code) exactly when
strictly more than the 1000 ms debounce window elapsed since the recorded
timestamp, and otherwise swallows the signal, recording the current time; two
interrupts 200 ms apart (at 500 ms and 700 ms after installation) leave the
guard running, while a second interrupt 1500 ms after the previous one (at
500 ms and 2000 ms) terminates it. -/
theorem c9_interrupt_guard :
    (∀ lastMs nowMs : Nat, lastMs ≤ nowMs →
        (interruptStep lastMs nowMs = .exitZero ↔ 1000 < nowMs - lastMs)
        ∧ (nowMs - lastMs ≤ 1000 → interruptStep lastMs nowMs = .swallow nowMs))
    ∧ runInterrupts 0 [500, 700] = .running 700
    ∧ runInterrupts 0 [500, 2000] = .exited := by
  refine ⟨?_, by decide, by decide⟩
  intro lastMs nowMs h
  unfold interruptStep
  rw [if_pos h]
  by_cases h2 : 1000 < nowMs - lastMs
  · rw [if_pos h2]
    exact ⟨⟨fun _ => h2, fun _ => rfl⟩,
      fun hle => absurd h2 (Nat.not_lt.mpr hle)⟩
  · rw [if_neg h2]
    refine ⟨⟨fun hc => InterruptAction.noConfusion hc,
      fun hgt => absurd hgt h2⟩, fun _ => rfl⟩

/-- Witness for `c9_interrupt_guard` at a recorded time 0 and an interrupt
1500 ms later. -/
theorem c9_interrupt_guard_witness :
    (interruptStep 0 1500 = .exitZero ↔ 1000 < 1500 - 0)
    ∧ (1500 - 0 ≤ 1000 → interruptStep 0 1500 = .swallow 1500) :=
  c9_interrupt_guard.1 0 1500 (by decide)

/-- Claim C10: every `to_str().unwrap()` / `file_name().unwrap()` site panics
(rather than reporting a structured error) on non-UTF-8 or file-name-less
data — the plugin-marker check at index 1, the conversion of tokens after a
separator, the selected binary path inside a recognized dialect branch, and
the file name of a candidate inspected by the `--filter` scan. -/
theorem c10_utf8_panics :
    (∀ (cfg : List OsString) (id : Nat), cfg[1]? = some (.invalid id) →
        removeDebugMarker cfg = none)
    ∧ (∀ (xs : List OsString) (os : OsString), os ∈ xs → os.toStr = none →
        convertTokens xs = none)
    ∧ (∀ (debugger : String) (bin : Path) (cf : Option String)
          (ch : Option (List String)),
        (strEndsWith debugger "gdb" = true ∨ strEndsWith debugger "lldb" = true) →
        bin.full.toStr = none →
        buildDebugArgs debugger bin cf ch = .panic "unwrap")
    ∧ (∀ (f : String) (p : Path) (ps : List Path), p.fileName = none →
        findByFilter f (p :: ps) = .panic "unwrap")
    ∧ (∀ (f : String) (p : Path) (ps : List Path) (id : Nat),
        p.fileName = some (.invalid id) →
        findByFilter f (p :: ps) = .panic "unwrap") := by
  refine ⟨?_, ?_, ?_, ?_, ?_⟩
  · intro cfg id h
    simp [removeDebugMarker, h, OsString.toStr]
  · intro xs os hmem hn
    induction xs with
    | nil => cases hmem
    | cons x rest ih =>
      rcases List.mem_cons.mp hmem with hx | hx
      · subst hx
        simp [convertTokens, hn]
      · have := ih hx
        cases hxs : x.toStr <;> simp [convertTokens, hxs, this]
  · intro debugger bin cf ch hdia hbin
    rcases hdia with hg | hl
    · simp [buildDebugArgs, hg, hbin]
    · by_cases hg : strEndsWith debugger "gdb" = true
      · simp [buildDebugArgs, hg, hbin]
      · simp [buildDebugArgs, hg, hl, hbin]
  · intro f p ps h
    simp [findByFilter, h]
  · intro f p ps id h
    simp [findByFilter, h, OsString.toStr]

/-- Witness for `c10_utf8_panics`: a non-UTF-8 token at index 1, a non-UTF-8
token in a converted group, a non-UTF-8 binary path under the gdb dialect,
and candidates with a missing and a non-UTF-8 file name. -/
theorem c10_utf8_panics_witness :
    removeDebugMarker [OsString.valid "cargo-debug", OsString.invalid 0] = none
    ∧ convertTokens [OsString.valid "a", OsString.invalid 1] = none
    ∧ buildDebugArgs "gdb" ⟨OsString.invalid 2, none⟩ none none = .panic "unwrap"
    ∧ findByFilter "x" [⟨OsString.valid "/t", none⟩] = .panic "unwrap"
    ∧ findByFilter "x" [⟨OsString.valid "/t", some (OsString.invalid 3)⟩]
        = .panic "unwrap" := by
  refine ⟨c10_utf8_panics.1 _ 0 rfl,
    c10_utf8_panics.2.1 _ (OsString.invalid 1) (by simp) rfl,
    c10_utf8_panics.2.2.1 "gdb" ⟨OsString.invalid 2, none⟩ none none
      (Or.inl (by decide)) rfl,
    c10_utf8_panics.2.2.2.1 "x" ⟨OsString.valid "/t", none⟩ [] rfl,
    c10_utf8_panics.2.2.2.2 "x" ⟨OsString.valid "/t", some (OsString.invalid 3)⟩
      [] 3 rfl⟩

end CargoDebug
